import Mathlib

/-!
Shallow embedding of the account controller
(src/server/services/account/account.controller.ts).

Each controller handler is embedded as a pure function from the outcomes of
its delegated calls (the auth service and the account / external-account
services, passed in as oracles) to a pair of
  - the handler outcome: either a response object passed to res, or an
    exception that escaped the handler body, and
  - the ordered trace of delegated calls the handler actually performed.
-/

namespace Pefcl

/-- Role of a user on a shared account (typings AccountRole). -/
inductive AccountRole where
  | Owner
  | Admin
  | Contributor
  deriving DecidableEq, Repr

/-- A thrown error value as the handlers observe it: they read only the
message field, and in one place also the name field. -/
structure Err where
  message : String
  name : String
  deriving DecidableEq, Repr

/-- The response object passed to res: status ok with a data payload, or
status error with errorMsg and (only in getExternalAccounts) errorName. -/
inductive Resp (α : Type) where
  | ok (data : α)
  | error (errorMsg : String) (errorName : Option String)
  deriving DecidableEq, Repr

/-- What a handler invocation does overall: it either calls res with a
response, or lets a thrown error escape the handler body uncaught. -/
inductive HandlerOutcome (α : Type) where
  | responded (r : Resp α)
  | escaped (e : Err)
  deriving DecidableEq, Repr

/-- Whether a handler outcome is a response passed to res (as opposed to an
escaped exception). -/
def isResponded {α : Type} : HandlerOutcome α → Bool
  | HandlerOutcome.responded _ => true
  | HandlerOutcome.escaped _ => false

/-- One delegated call a handler can make, recorded in the call trace. -/
inductive Call where
  | authCheck (accountId : Nat) (source : Nat) (roles : List AccountRole)
  | svcGetMyAccounts
  | svcGetTotalBankBalance
  | svcHandleCreateAccount
  | svcHandleDeleteAccount
  | svcCreateAccount
  | svcHandleDepositMoney
  | svcHandleWithdrawMoney
  | svcHandleSetDefaultAccount
  | svcHandleRenameAccount
  | svcAddUserToShared
  | svcRemoveUserFromShared
  | svcGetUsersFromShared
  | extHandleAddAccount
  | extGetAccounts
  | svcAddMoney
  | svcRemoveMoney
  | svcCreateInitialAccount
  deriving DecidableEq, Repr

/-- A network request: resolved caller source plus operation payload. -/
structure Request (α : Type) where
  source : Nat
  data : α
  deriving DecidableEq, Repr

/-- Payload carrying only an account id. -/
structure AccountIdData where
  accountId : Nat
  deriving DecidableEq, Repr

/-- ATMInput payload: amount, message, and an optional account id (the
withdrawMoney handler tests its JS truthiness before the auth check). -/
structure ATMInput where
  amount : Nat
  message : String
  accountId : Option Nat
  deriving DecidableEq, Repr

/-- RenameAccountInput payload. -/
structure RenameAccountInput where
  accountId : Nat
  name : String
  deriving DecidableEq, Repr

/-- AddToSharedAccountInput payload. -/
structure AddToSharedAccountInput where
  accountId : Nat
  identifier : String
  role : AccountRole
  deriving DecidableEq, Repr

/-- RemoveFromSharedAccountInput payload. -/
structure RemoveFromSharedAccountInput where
  accountId : Nat
  identifier : String
  deriving DecidableEq, Repr

/-- The online user object delivered by the user-loaded event. -/
structure OnlineUser where
  source : Nat
  deriving DecidableEq, Repr

/-- The auth service oracle: isAuthorizedAccount(accountId, source, roles)
either resolves (ok) or throws (error). -/
def AuthFn : Type := Nat → Nat → List AccountRole → Except Err Unit

/-- JS truthiness of the optional numeric account id: undefined (none) and
the number 0 are falsy, every other number is truthy. -/
def truthy : Option Nat → Bool
  | none => false
  | some n => n != 0

/-- getAccounts (lines 50-55): awaits handleGetMyAccounts(req.source) and
responds ok with the accounts. The body has no try/catch, so a thrown
error escapes the handler. -/
def getAccounts {α : Type} (handleGetMyAccounts : Nat → Except Err α)
    (req : Request Unit) : HandlerOutcome α × List Call :=
  match handleGetMyAccounts req.source with
  | Except.ok accounts =>
      (HandlerOutcome.responded (Resp.ok accounts), [Call.svcGetMyAccounts])
  | Except.error e => (HandlerOutcome.escaped e, [Call.svcGetMyAccounts])

/-- getTotalBankBalance (lines 57-61): awaits the service balance and
responds ok. The body has no try/catch, so a thrown error escapes. -/
def getTotalBankBalance {α : Type} (svcGetTotalBankBalance : Nat → Except Err α)
    (req : Request Unit) : HandlerOutcome α × List Call :=
  match svcGetTotalBankBalance req.source with
  | Except.ok balance =>
      (HandlerOutcome.responded (Resp.ok balance), [Call.svcGetTotalBankBalance])
  | Except.error e => (HandlerOutcome.escaped e, [Call.svcGetTotalBankBalance])

/-- createAccount (lines 63-72): try handleCreateAccount(req), respond ok
with the account; catch responds error with err.message. -/
def createAccount {π α : Type} (handleCreateAccount : Request π → Except Err α)
    (req : Request π) : HandlerOutcome α × List Call :=
  match handleCreateAccount req with
  | Except.ok account =>
      (HandlerOutcome.responded (Resp.ok account), [Call.svcHandleCreateAccount])
  | Except.error err =>
      (HandlerOutcome.responded (Resp.error err.message none), [Call.svcHandleCreateAccount])

/-- deleteAccount (lines 74-83): try Owner auth check on req.data.accountId,
then handleDeleteAccount(req), respond ok; catch responds error with
err.message. -/
def deleteAccount (auth : AuthFn) (handleDeleteAccount : Request AccountIdData → Except Err Unit)
    (req : Request AccountIdData) : HandlerOutcome Unit × List Call :=
  let c1 := Call.authCheck req.data.accountId req.source [AccountRole.Owner]
  match auth req.data.accountId req.source [AccountRole.Owner] with
  | Except.error err => (HandlerOutcome.responded (Resp.error err.message none), [c1])
  | Except.ok _ =>
    match handleDeleteAccount req with
    | Except.error err =>
        (HandlerOutcome.responded (Resp.error err.message none),
         [c1, Call.svcHandleDeleteAccount])
    | Except.ok _ =>
        (HandlerOutcome.responded (Resp.ok ()), [c1, Call.svcHandleDeleteAccount])

/-- exportCreateAccount (lines 85-93): try createAccount(req) on the
service, respond ok with the account; catch responds error. -/
def exportCreateAccount {π α : Type} (svcCreateAccount : Request π → Except Err α)
    (req : Request π) : HandlerOutcome α × List Call :=
  match svcCreateAccount req with
  | Except.ok account =>
      (HandlerOutcome.responded (Resp.ok account), [Call.svcCreateAccount])
  | Except.error err =>
      (HandlerOutcome.responded (Resp.error err.message none), [Call.svcCreateAccount])

/-- depositMoney (lines 95-104): try handleDepositMoney(req), respond ok
with empty payload; catch responds error. No auth check is made. -/
def depositMoney (handleDepositMoney : Request ATMInput → Except Err Unit)
    (req : Request ATMInput) : HandlerOutcome Unit × List Call :=
  match handleDepositMoney req with
  | Except.ok _ =>
      (HandlerOutcome.responded (Resp.ok ()), [Call.svcHandleDepositMoney])
  | Except.error err =>
      (HandlerOutcome.responded (Resp.error err.message none), [Call.svcHandleDepositMoney])

/-- withdrawMoney (lines 106-120): reads accountId from the payload; inside
try, evaluates accountId and-and await auth(accountId, source, Admin) —
so the Admin auth check runs only when accountId is truthy — then awaits
handleWithdrawMoney(req) and responds ok; catch responds error. -/
def withdrawMoney (auth : AuthFn) (handleWithdrawMoney : Request ATMInput → Except Err Unit)
    (req : Request ATMInput) : HandlerOutcome Unit × List Call :=
  let accountId := req.data.accountId
  if truthy accountId then
    let aid := accountId.getD 0
    let c1 := Call.authCheck aid req.source [AccountRole.Admin]
    match auth aid req.source [AccountRole.Admin] with
    | Except.error err => (HandlerOutcome.responded (Resp.error err.message none), [c1])
    | Except.ok _ =>
      match handleWithdrawMoney req with
      | Except.error err =>
          (HandlerOutcome.responded (Resp.error err.message none),
           [c1, Call.svcHandleWithdrawMoney])
      | Except.ok _ =>
          (HandlerOutcome.responded (Resp.ok ()), [c1, Call.svcHandleWithdrawMoney])
  else
    match handleWithdrawMoney req with
    | Except.error err =>
        (HandlerOutcome.responded (Resp.error err.message none), [Call.svcHandleWithdrawMoney])
    | Except.ok _ =>
        (HandlerOutcome.responded (Resp.ok ()), [Call.svcHandleWithdrawMoney])

/-- setDefaultAccount (lines 122-131): try Admin auth check on
req.data.accountId, then handleSetDefaultAccount(req), respond ok; catch
responds error. -/
def setDefaultAccount (auth : AuthFn)
    (handleSetDefaultAccount : Request AccountIdData → Except Err Unit)
    (req : Request AccountIdData) : HandlerOutcome Unit × List Call :=
  let c1 := Call.authCheck req.data.accountId req.source [AccountRole.Admin]
  match auth req.data.accountId req.source [AccountRole.Admin] with
  | Except.error err => (HandlerOutcome.responded (Resp.error err.message none), [c1])
  | Except.ok _ =>
    match handleSetDefaultAccount req with
    | Except.error err =>
        (HandlerOutcome.responded (Resp.error err.message none),
         [c1, Call.svcHandleSetDefaultAccount])
    | Except.ok _ =>
        (HandlerOutcome.responded (Resp.ok ()), [c1, Call.svcHandleSetDefaultAccount])

/-- renameAccount (lines 133-142): try Admin auth check on
req.data.accountId, then handleRenameAccount(req), respond ok; catch
responds error. -/
def renameAccount (auth : AuthFn)
    (handleRenameAccount : Request RenameAccountInput → Except Err Unit)
    (req : Request RenameAccountInput) : HandlerOutcome Unit × List Call :=
  let c1 := Call.authCheck req.data.accountId req.source [AccountRole.Admin]
  match auth req.data.accountId req.source [AccountRole.Admin] with
  | Except.error err => (HandlerOutcome.responded (Resp.error err.message none), [c1])
  | Except.ok _ =>
    match handleRenameAccount req with
    | Except.error err =>
        (HandlerOutcome.responded (Resp.error err.message none),
         [c1, Call.svcHandleRenameAccount])
    | Except.ok _ =>
        (HandlerOutcome.responded (Resp.ok ()), [c1, Call.svcHandleRenameAccount])

/-- addSharedAccountUser (lines 144-153): try Admin auth check on
req.data.accountId, then addUserToShared(req), respond ok; catch responds
error. -/
def addSharedAccountUser (auth : AuthFn)
    (addUserToShared : Request AddToSharedAccountInput → Except Err Unit)
    (req : Request AddToSharedAccountInput) : HandlerOutcome Unit × List Call :=
  let c1 := Call.authCheck req.data.accountId req.source [AccountRole.Admin]
  match auth req.data.accountId req.source [AccountRole.Admin] with
  | Except.error err => (HandlerOutcome.responded (Resp.error err.message none), [c1])
  | Except.ok _ =>
    match addUserToShared req with
    | Except.error err =>
        (HandlerOutcome.responded (Resp.error err.message none),
         [c1, Call.svcAddUserToShared])
    | Except.ok _ =>
        (HandlerOutcome.responded (Resp.ok ()), [c1, Call.svcAddUserToShared])

/-- removeSharedAccountUser (lines 155-164): try Admin auth check on
req.data.accountId, then removeUserFromShared(req), respond ok; catch
responds error. -/
def removeSharedAccountUser (auth : AuthFn)
    (removeUserFromShared : Request RemoveFromSharedAccountInput → Except Err Unit)
    (req : Request RemoveFromSharedAccountInput) : HandlerOutcome Unit × List Call :=
  let c1 := Call.authCheck req.data.accountId req.source [AccountRole.Admin]
  match auth req.data.accountId req.source [AccountRole.Admin] with
  | Except.error err => (HandlerOutcome.responded (Resp.error err.message none), [c1])
  | Except.ok _ =>
    match removeUserFromShared req with
    | Except.error err =>
        (HandlerOutcome.responded (Resp.error err.message none),
         [c1, Call.svcRemoveUserFromShared])
    | Except.ok _ =>
        (HandlerOutcome.responded (Resp.ok ()), [c1, Call.svcRemoveUserFromShared])

/-- getUsersFromSharedAccount (lines 166-181): try auth check with roles
[Admin, Contributor] on req.data.accountId, then getUsersFromShared(req),
respond ok with the member list; catch responds error. -/
def getUsersFromSharedAccount {α : Type} (auth : AuthFn)
    (getUsersFromShared : Request AccountIdData → Except Err α)
    (req : Request AccountIdData) : HandlerOutcome α × List Call :=
  let c1 := Call.authCheck req.data.accountId req.source
      [AccountRole.Admin, AccountRole.Contributor]
  match auth req.data.accountId req.source [AccountRole.Admin, AccountRole.Contributor] with
  | Except.error err => (HandlerOutcome.responded (Resp.error err.message none), [c1])
  | Except.ok _ =>
    match getUsersFromShared req with
    | Except.error err =>
        (HandlerOutcome.responded (Resp.error err.message none),
         [c1, Call.svcGetUsersFromShared])
    | Except.ok users =>
        (HandlerOutcome.responded (Resp.ok users), [c1, Call.svcGetUsersFromShared])

/-- addExternalAccount (lines 183-191): try handleAddAccount(req) on the
external account service, respond ok; catch responds error. -/
def addExternalAccount {π : Type} (handleAddAccount : Request π → Except Err Unit)
    (req : Request π) : HandlerOutcome Unit × List Call :=
  match handleAddAccount req with
  | Except.ok _ =>
      (HandlerOutcome.responded (Resp.ok ()), [Call.extHandleAddAccount])
  | Except.error err =>
      (HandlerOutcome.responded (Resp.error err.message none), [Call.extHandleAddAccount])

/-- getExternalAccounts (lines 193-201): try getAccounts(req) on the
external account service, respond ok with the data; catch responds error
with errorMsg err.message and errorName err.name. -/
def getExternalAccounts {α : Type} (extAccounts : Request Unit → Except Err α)
    (req : Request Unit) : HandlerOutcome α × List Call :=
  match extAccounts req with
  | Except.ok data =>
      (HandlerOutcome.responded (Resp.ok data), [Call.extGetAccounts])
  | Except.error err =>
      (HandlerOutcome.responded (Resp.error err.message (some err.name)), [Call.extGetAccounts])

/-- addBankBalance (lines 203-211): try addMoney(req) with the request
unmodified, respond ok with empty payload; catch responds error. -/
def addBankBalance {π : Type} (addMoney : Request π → Except Err Unit)
    (req : Request π) : HandlerOutcome Unit × List Call :=
  match addMoney req with
  | Except.ok _ =>
      (HandlerOutcome.responded (Resp.ok ()), [Call.svcAddMoney])
  | Except.error err =>
      (HandlerOutcome.responded (Resp.error err.message none), [Call.svcAddMoney])

/-- addBankBalanceByIdentifier (lines 213-221): try addMoney(req) with the
request unmodified, respond ok with empty payload; catch responds error. -/
def addBankBalanceByIdentifier {π : Type} (addMoney : Request π → Except Err Unit)
    (req : Request π) : HandlerOutcome Unit × List Call :=
  match addMoney req with
  | Except.ok _ =>
      (HandlerOutcome.responded (Resp.ok ()), [Call.svcAddMoney])
  | Except.error err =>
      (HandlerOutcome.responded (Resp.error err.message none), [Call.svcAddMoney])

/-- removeBankBalance (lines 223-234): try removeMoney(req), respond ok
with empty payload; catch responds error. -/
def removeBankBalance {π : Type} (removeMoney : Request π → Except Err Unit)
    (req : Request π) : HandlerOutcome Unit × List Call :=
  match removeMoney req with
  | Except.ok _ =>
      (HandlerOutcome.responded (Resp.ok ()), [Call.svcRemoveMoney])
  | Except.error err =>
      (HandlerOutcome.responded (Resp.error err.message none), [Call.svcRemoveMoney])

/-- Modelled from the spec: the default account creation invoked by
onUserLoaded (AccountService.createInitialAccount, the Default Account
Manager of section 4.2) is not under src; per the spec its failures are
logged, not surfaced to the triggering caller. This returns the log lines
produced by the fired task for a given outcome. -/
def createInitialAccountLog (outcome : Except Err Unit) : List String :=
  match outcome with
  | Except.ok _ => []
  | Except.error e => [e.message]

/-- onUserLoaded (lines 236-241): fires createInitialAccount(user.source)
WITHOUT awaiting it and returns; the handler takes no res callback, so no
response ever exists. The first component is what the handler itself
produces (unit, plus the trace showing the fired call); the second is the
log of the fired task per createInitialAccountLog. -/
def onUserLoaded (createInitialAccount : Nat → Except Err Unit)
    (user : OnlineUser) : (Unit × List Call) × List String :=
  (((), [Call.svcCreateInitialAccount]),
   createInitialAccountLog (createInitialAccount user.source))

/-- Kind of an account (spec section 3). -/
inductive AccountKind where
  | Personal
  | Shared
  deriving DecidableEq, Repr

/-- Modelled from the spec (section 3): the account fields the Role
Registry reads when authorizing. -/
structure SpecAccount where
  id : Nat
  ownerId : Nat
  kind : AccountKind
  deriving DecidableEq, Repr

/-- Modelled from the spec (section 3): a SharedAccountUser membership
edge. -/
structure Membership where
  accountId : Nat
  userId : Nat
  role : AccountRole
  deriving DecidableEq, Repr

/-- The state the Role Registry reads: accounts and membership edges. -/
structure RegistryState where
  accounts : List SpecAccount
  memberships : List Membership
  deriving DecidableEq, Repr

/-- Role hierarchy (spec section 3): covers r q is true when role r grants
at least the permission breadth of q. Owner covers everything, Admin
covers Admin and Contributor, Contributor covers only Contributor. -/
def covers : AccountRole → AccountRole → Bool
  | AccountRole.Owner, _ => true
  | AccountRole.Admin, AccountRole.Admin => true
  | AccountRole.Admin, AccountRole.Contributor => true
  | AccountRole.Contributor, AccountRole.Contributor => true
  | _, _ => false

/-- Modelled from the spec: the Role Registry authorize contract of section
4.1 (the AuthService.isAuthorizedAccount implementation is not under src).
Fails NotFound when the account does not exist; a Personal account
authorizes solely by identity match to ownerId; a Shared account requires
a membership whose role covers one of the required roles, otherwise
Unauthorized. -/
def authorize (st : RegistryState) (accountId : Nat) (actorId : Nat)
    (requiredRoles : List AccountRole) : Except Err Unit :=
  match st.accounts.find? (fun a => a.id == accountId) with
  | none => Except.error ⟨"Account not found", "NotFound"⟩
  | some a =>
    match a.kind with
    | AccountKind.Personal =>
        if a.ownerId == actorId then Except.ok ()
        else Except.error ⟨"Unauthorized", "Unauthorized"⟩
    | AccountKind.Shared =>
      match st.memberships.find? (fun m => m.accountId == accountId && m.userId == actorId) with
      | none => Except.error ⟨"Unauthorized", "Unauthorized"⟩
      | some m =>
          if requiredRoles.any (fun r => covers m.role r) then Except.ok ()
          else Except.error ⟨"Unauthorized", "Unauthorized"⟩

/-- Claim C10: addBankBalance and addBankBalanceByIdentifier are
behaviorally equivalent: for every addMoney service and every request,
both delegate the unmodified request to the same addMoney call and
produce identical responses and call traces. -/
theorem addBankBalance_eq_byIdentifier {π : Type}
    (addMoney : Request π → Except Err Unit) (req : Request π) :
    addBankBalance addMoney req = addBankBalanceByIdentifier addMoney req := rfl

/-- Claim C6: depositMoney performs no authorization check: its call trace
is exactly the handleDepositMoney call for every service behavior, it
responds ok with empty payload when the service resolves, and error with
the thrown message when the service throws. -/
theorem depositMoney_no_auth_check
    (handleDepositMoney : Request ATMInput → Except Err Unit)
    (req : Request ATMInput) (e : Err) :
    (depositMoney handleDepositMoney req).2 = [Call.svcHandleDepositMoney] ∧
    depositMoney (fun _ => Except.ok ()) req =
      (HandlerOutcome.responded (Resp.ok ()), [Call.svcHandleDepositMoney]) ∧
    depositMoney (fun _ => Except.error e) req =
      (HandlerOutcome.responded (Resp.error e.message none), [Call.svcHandleDepositMoney]) := by
  refine ⟨?_, rfl, rfl⟩
  cases h : handleDepositMoney req <;> simp [depositMoney, h]

/-- Claim C3: deleteAccount first runs the Owner auth check on the
requested account id; when the check throws, the trace contains no call
to handleDeleteAccount and the response is status error with the thrown
message; when the check passes, the deletion call follows the check, and
the response mirrors the service outcome. -/
theorem deleteAccount_owner_auth_first
    (handleDeleteAccount : Request AccountIdData → Except Err Unit)
    (req : Request AccountIdData) (e : Err) :
    deleteAccount (fun _ _ _ => Except.error e) handleDeleteAccount req =
      (HandlerOutcome.responded (Resp.error e.message none),
       [Call.authCheck req.data.accountId req.source [AccountRole.Owner]]) ∧
    (deleteAccount (fun _ _ _ => Except.ok ()) handleDeleteAccount req).2 =
      [Call.authCheck req.data.accountId req.source [AccountRole.Owner],
       Call.svcHandleDeleteAccount] ∧
    deleteAccount (fun _ _ _ => Except.ok ()) (fun _ => Except.ok ()) req =
      (HandlerOutcome.responded (Resp.ok ()),
       [Call.authCheck req.data.accountId req.source [AccountRole.Owner],
        Call.svcHandleDeleteAccount]) ∧
    deleteAccount (fun _ _ _ => Except.ok ()) (fun _ => Except.error e) req =
      (HandlerOutcome.responded (Resp.error e.message none),
       [Call.authCheck req.data.accountId req.source [AccountRole.Owner],
        Call.svcHandleDeleteAccount]) := by
  refine ⟨rfl, ?_, rfl, rfl⟩
  cases h : handleDeleteAccount req <;> simp [deleteAccount, h]

/-- Claim C7: setDefaultAccount and renameAccount each run an Admin auth
check on the requested account id before the service mutation; when the
check throws, the mutation is not in the trace and the response is status
error; when it passes, the mutation follows the check and the response
mirrors the service outcome. -/
theorem setDefault_rename_admin_auth
    (handleSetDefaultAccount : Request AccountIdData → Except Err Unit)
    (handleRenameAccount : Request RenameAccountInput → Except Err Unit)
    (reqAcc : Request AccountIdData) (reqRen : Request RenameAccountInput) (e : Err) :
    setDefaultAccount (fun _ _ _ => Except.error e) handleSetDefaultAccount reqAcc =
      (HandlerOutcome.responded (Resp.error e.message none),
       [Call.authCheck reqAcc.data.accountId reqAcc.source [AccountRole.Admin]]) ∧
    (setDefaultAccount (fun _ _ _ => Except.ok ()) handleSetDefaultAccount reqAcc).2 =
      [Call.authCheck reqAcc.data.accountId reqAcc.source [AccountRole.Admin],
       Call.svcHandleSetDefaultAccount] ∧
    setDefaultAccount (fun _ _ _ => Except.ok ()) (fun _ => Except.ok ()) reqAcc =
      (HandlerOutcome.responded (Resp.ok ()),
       [Call.authCheck reqAcc.data.accountId reqAcc.source [AccountRole.Admin],
        Call.svcHandleSetDefaultAccount]) ∧
    setDefaultAccount (fun _ _ _ => Except.ok ()) (fun _ => Except.error e) reqAcc =
      (HandlerOutcome.responded (Resp.error e.message none),
       [Call.authCheck reqAcc.data.accountId reqAcc.source [AccountRole.Admin],
        Call.svcHandleSetDefaultAccount]) ∧
    renameAccount (fun _ _ _ => Except.error e) handleRenameAccount reqRen =
      (HandlerOutcome.responded (Resp.error e.message none),
       [Call.authCheck reqRen.data.accountId reqRen.source [AccountRole.Admin]]) ∧
    (renameAccount (fun _ _ _ => Except.ok ()) handleRenameAccount reqRen).2 =
      [Call.authCheck reqRen.data.accountId reqRen.source [AccountRole.Admin],
       Call.svcHandleRenameAccount] ∧
    renameAccount (fun _ _ _ => Except.ok ()) (fun _ => Except.ok ()) reqRen =
      (HandlerOutcome.responded (Resp.ok ()),
       [Call.authCheck reqRen.data.accountId reqRen.source [AccountRole.Admin],
        Call.svcHandleRenameAccount]) ∧
    renameAccount (fun _ _ _ => Except.ok ()) (fun _ => Except.error e) reqRen =
      (HandlerOutcome.responded (Resp.error e.message none),
       [Call.authCheck reqRen.data.accountId reqRen.source [AccountRole.Admin],
        Call.svcHandleRenameAccount]) := by
  refine ⟨rfl, ?_, rfl, rfl, rfl, ?_, rfl, rfl⟩
  · cases h : handleSetDefaultAccount reqAcc <;> simp [setDefaultAccount, h]
  · cases h : handleRenameAccount reqRen <;> simp [renameAccount, h]

/-- Claim C8: onUserLoaded returns unit immediately with only the fired
createInitialAccount call in its trace; its own result is independent of
the fired task, so the triggering event never observes a response; a
failure of the fired task is logged (per the spec-modelled
createInitialAccountLog) and does not change what the handler returns. -/
theorem onUserLoaded_fire_and_forget
    (createInitialAccount : Nat → Except Err Unit) (g : Nat → Except Err Unit)
    (user : OnlineUser) (e : Err) :
    (onUserLoaded createInitialAccount user).1 = ((), [Call.svcCreateInitialAccount]) ∧
    (onUserLoaded createInitialAccount user).1 = (onUserLoaded g user).1 ∧
    (onUserLoaded (fun _ => Except.error e) user).2 = [e.message] ∧
    (onUserLoaded (fun _ => Except.ok ()) user).2 = [] :=
  ⟨rfl, rfl, rfl, rfl⟩

/-- Claim C2, counterexample: a withdrawMoney request whose payload carries
no account id (undefined, hence falsy) is delegated to
handleWithdrawMoney with NO auth check at all — even against an auth
service that would reject everything, the withdrawal succeeds and the
trace holds only the service call. -/
theorem withdrawMoney_skips_auth_cex :
    withdrawMoney (fun _ _ _ => Except.error ⟨"Unauthorized", "Unauthorized"⟩)
      (fun _ => Except.ok ()) ⟨4, ⟨50, "atm withdraw", none⟩⟩ =
    (HandlerOutcome.responded (Resp.ok ()), [Call.svcHandleWithdrawMoney]) := rfl

/-- Claim C2, amended: when the request carries a truthy (present and
nonzero) account id, withdrawMoney runs the Admin auth check on it before
handleWithdrawMoney — a throwing check yields an error response with no
service call in the trace, and a passing check puts the service call
after it; when the account id is absent or zero, no auth check happens
and the request is delegated directly. -/
theorem withdrawMoney_admin_auth_when_truthy
    (auth : AuthFn) (handleWithdrawMoney : Request ATMInput → Except Err Unit)
    (src amt n : Nat) (msg : String) (e : Err) :
    withdrawMoney (fun _ _ _ => Except.error e) handleWithdrawMoney
        ⟨src, ⟨amt, msg, some (n + 1)⟩⟩ =
      (HandlerOutcome.responded (Resp.error e.message none),
       [Call.authCheck (n + 1) src [AccountRole.Admin]]) ∧
    (withdrawMoney (fun _ _ _ => Except.ok ()) handleWithdrawMoney
        ⟨src, ⟨amt, msg, some (n + 1)⟩⟩).2 =
      [Call.authCheck (n + 1) src [AccountRole.Admin], Call.svcHandleWithdrawMoney] ∧
    (withdrawMoney auth handleWithdrawMoney ⟨src, ⟨amt, msg, none⟩⟩).2 =
      [Call.svcHandleWithdrawMoney] ∧
    (withdrawMoney auth handleWithdrawMoney ⟨src, ⟨amt, msg, some 0⟩⟩).2 =
      [Call.svcHandleWithdrawMoney] ∧
    withdrawMoney auth (fun _ => Except.ok ()) ⟨src, ⟨amt, msg, none⟩⟩ =
      (HandlerOutcome.responded (Resp.ok ()), [Call.svcHandleWithdrawMoney]) ∧
    withdrawMoney auth (fun _ => Except.error e) ⟨src, ⟨amt, msg, none⟩⟩ =
      (HandlerOutcome.responded (Resp.error e.message none), [Call.svcHandleWithdrawMoney]) := by
  refine ⟨rfl, ?_, ?_, ?_, rfl, rfl⟩
  · cases h : handleWithdrawMoney ⟨src, ⟨amt, msg, some (n + 1)⟩⟩ <;>
      simp [withdrawMoney, truthy, h]
  · cases h : handleWithdrawMoney ⟨src, ⟨amt, msg, none⟩⟩ <;>
      simp [withdrawMoney, truthy, h]
  · cases h : handleWithdrawMoney ⟨src, ⟨amt, msg, some 0⟩⟩ <;>
      simp [withdrawMoney, truthy, h]

/-- A Contributor membership does not pass an Admin-only check in the
spec-modelled Role Registry. -/
theorem authorize_contributor_admin_check (aid uid owner : Nat) :
    authorize ⟨[⟨aid, owner, AccountKind.Shared⟩], [⟨aid, uid, AccountRole.Contributor⟩]⟩
      aid uid [AccountRole.Admin] = Except.error ⟨"Unauthorized", "Unauthorized"⟩ := by
  simp [authorize, covers, List.find?]

/-- Any membership role passes the [Admin, Contributor] check of the
spec-modelled Role Registry (Owner and Admin cover Admin, Contributor
covers Contributor). -/
theorem authorize_member_list_check (aid uid owner : Nat) (role : AccountRole) :
    authorize ⟨[⟨aid, owner, AccountKind.Shared⟩], [⟨aid, uid, role⟩]⟩
      aid uid [AccountRole.Admin, AccountRole.Contributor] = Except.ok () := by
  cases role <;> simp [authorize, covers, List.find?]

/-- Claim C4: addSharedAccountUser and removeSharedAccountUser each run an
auth check with exactly the role list [Admin] before the membership
mutation; a throwing check yields an error response with no mutation in
the trace, a passing check puts the mutation after it; and against the
spec-modelled Role Registry, a member whose role is Contributor gets an
Unauthorized error and no mutation is attempted, for both operations. -/
theorem sharedMembership_admin_auth
    (addUserToShared : Request AddToSharedAccountInput → Except Err Unit)
    (removeUserFromShared : Request RemoveFromSharedAccountInput → Except Err Unit)
    (reqAdd : Request AddToSharedAccountInput) (reqRem : Request RemoveFromSharedAccountInput)
    (e : Err) (aid uid owner : Nat) (idf : String) (role : AccountRole) :
    addSharedAccountUser (fun _ _ _ => Except.error e) addUserToShared reqAdd =
      (HandlerOutcome.responded (Resp.error e.message none),
       [Call.authCheck reqAdd.data.accountId reqAdd.source [AccountRole.Admin]]) ∧
    removeSharedAccountUser (fun _ _ _ => Except.error e) removeUserFromShared reqRem =
      (HandlerOutcome.responded (Resp.error e.message none),
       [Call.authCheck reqRem.data.accountId reqRem.source [AccountRole.Admin]]) ∧
    (addSharedAccountUser (fun _ _ _ => Except.ok ()) addUserToShared reqAdd).2 =
      [Call.authCheck reqAdd.data.accountId reqAdd.source [AccountRole.Admin],
       Call.svcAddUserToShared] ∧
    (removeSharedAccountUser (fun _ _ _ => Except.ok ()) removeUserFromShared reqRem).2 =
      [Call.authCheck reqRem.data.accountId reqRem.source [AccountRole.Admin],
       Call.svcRemoveUserFromShared] ∧
    addSharedAccountUser
        (authorize ⟨[⟨aid, owner, AccountKind.Shared⟩], [⟨aid, uid, AccountRole.Contributor⟩]⟩)
        addUserToShared ⟨uid, ⟨aid, idf, role⟩⟩ =
      (HandlerOutcome.responded (Resp.error "Unauthorized" none),
       [Call.authCheck aid uid [AccountRole.Admin]]) ∧
    removeSharedAccountUser
        (authorize ⟨[⟨aid, owner, AccountKind.Shared⟩], [⟨aid, uid, AccountRole.Contributor⟩]⟩)
        removeUserFromShared ⟨uid, ⟨aid, idf⟩⟩ =
      (HandlerOutcome.responded (Resp.error "Unauthorized" none),
       [Call.authCheck aid uid [AccountRole.Admin]]) := by
  refine ⟨rfl, rfl, ?_, ?_, ?_, ?_⟩
  · cases h : addUserToShared reqAdd <;> simp [addSharedAccountUser, h]
  · cases h : removeUserFromShared reqRem <;> simp [removeSharedAccountUser, h]
  · simp [addSharedAccountUser, authorize_contributor_admin_check aid uid owner]
  · simp [removeSharedAccountUser, authorize_contributor_admin_check aid uid owner]

/-- Claim C5: getUsersFromSharedAccount runs an auth check with the role
list [Admin, Contributor] before fetching the member list; a throwing
check yields an error response with no fetch in the trace; a passing
check is followed by the fetch and the resolved member list is returned;
and against the spec-modelled Role Registry, a member holding Admin and a
member holding Contributor both succeed. -/
theorem getUsersFromSharedAccount_member_auth {α : Type}
    (getUsersFromShared : Request AccountIdData → Except Err α)
    (req : Request AccountIdData) (e : Err) (aid uid owner : Nat) (xs : α) :
    getUsersFromSharedAccount (fun _ _ _ => Except.error e) getUsersFromShared req =
      (HandlerOutcome.responded (Resp.error e.message none),
       [Call.authCheck req.data.accountId req.source
          [AccountRole.Admin, AccountRole.Contributor]]) ∧
    (getUsersFromSharedAccount (fun _ _ _ => Except.ok ()) getUsersFromShared req).2 =
      [Call.authCheck req.data.accountId req.source
         [AccountRole.Admin, AccountRole.Contributor],
       Call.svcGetUsersFromShared] ∧
    getUsersFromSharedAccount (fun _ _ _ => Except.ok ())
        (fun _ => (Except.ok xs : Except Err α)) req =
      (HandlerOutcome.responded (Resp.ok xs),
       [Call.authCheck req.data.accountId req.source
          [AccountRole.Admin, AccountRole.Contributor],
        Call.svcGetUsersFromShared]) ∧
    getUsersFromSharedAccount
        (authorize ⟨[⟨aid, owner, AccountKind.Shared⟩], [⟨aid, uid, AccountRole.Admin⟩]⟩)
        (fun _ => (Except.ok xs : Except Err α)) ⟨uid, ⟨aid⟩⟩ =
      (HandlerOutcome.responded (Resp.ok xs),
       [Call.authCheck aid uid [AccountRole.Admin, AccountRole.Contributor],
        Call.svcGetUsersFromShared]) ∧
    getUsersFromSharedAccount
        (authorize ⟨[⟨aid, owner, AccountKind.Shared⟩], [⟨aid, uid, AccountRole.Contributor⟩]⟩)
        (fun _ => (Except.ok xs : Except Err α)) ⟨uid, ⟨aid⟩⟩ =
      (HandlerOutcome.responded (Resp.ok xs),
       [Call.authCheck aid uid [AccountRole.Admin, AccountRole.Contributor],
        Call.svcGetUsersFromShared]) := by
  refine ⟨rfl, ?_, rfl, ?_, ?_⟩
  · cases h : getUsersFromShared req <;> simp [getUsersFromSharedAccount, h]
  · simp [getUsersFromSharedAccount, authorize_member_list_check aid uid owner]
  · simp [getUsersFromSharedAccount, authorize_member_list_check aid uid owner]

/-- Claim C1, counterexample: getAccounts has no try/catch, so when
handleGetMyAccounts throws, the error escapes the handler uncaught and no
tagged response is produced. -/
theorem getAccounts_escape_cex :
    getAccounts (fun _ => (Except.error ⟨"storage unavailable", "Error"⟩ : Except Err Unit))
      ⟨1, ()⟩ =
    (HandlerOutcome.escaped ⟨"storage unavailable", "Error"⟩, [Call.svcGetMyAccounts]) := rfl

/-- Claim C1, amended: every handler whose body is wrapped in try/catch
replies with a tagged response for every outcome of its delegated calls
and never lets an exception escape; getAccounts and getTotalBankBalance
(whose bodies have no try/catch) reply ok when the service resolves but
let a thrown error escape the handler. -/
theorem handlers_tagged_or_escape {π α : Type}
    (auth : AuthFn)
    (svcU : Request π → Except Err Unit)
    (svcA : Request π → Except Err α)
    (svcAcc : Request AccountIdData → Except Err Unit)
    (svcAtm : Request ATMInput → Except Err Unit)
    (svcRen : Request RenameAccountInput → Except Err Unit)
    (svcAdd : Request AddToSharedAccountInput → Except Err Unit)
    (svcRem : Request RemoveFromSharedAccountInput → Except Err Unit)
    (svcUsers : Request AccountIdData → Except Err α)
    (svcExt : Request Unit → Except Err α)
    (req : Request π) (reqAcc : Request AccountIdData) (reqAtm : Request ATMInput)
    (reqRen : Request RenameAccountInput) (reqAdd : Request AddToSharedAccountInput)
    (reqRem : Request RemoveFromSharedAccountInput) (reqU : Request Unit)
    (a : α) (e : Err) :
    isResponded (createAccount svcA req).1 = true ∧
    isResponded (deleteAccount auth svcAcc reqAcc).1 = true ∧
    isResponded (exportCreateAccount svcA req).1 = true ∧
    isResponded (depositMoney svcAtm reqAtm).1 = true ∧
    isResponded (withdrawMoney auth svcAtm reqAtm).1 = true ∧
    isResponded (setDefaultAccount auth svcAcc reqAcc).1 = true ∧
    isResponded (renameAccount auth svcRen reqRen).1 = true ∧
    isResponded (addSharedAccountUser auth svcAdd reqAdd).1 = true ∧
    isResponded (removeSharedAccountUser auth svcRem reqRem).1 = true ∧
    isResponded (getUsersFromSharedAccount auth svcUsers reqAcc).1 = true ∧
    isResponded (addExternalAccount svcU req).1 = true ∧
    isResponded (getExternalAccounts svcExt reqU).1 = true ∧
    isResponded (addBankBalance svcU req).1 = true ∧
    isResponded (addBankBalanceByIdentifier svcU req).1 = true ∧
    isResponded (removeBankBalance svcU req).1 = true ∧
    getAccounts (fun _ => (Except.ok a : Except Err α)) reqU =
      (HandlerOutcome.responded (Resp.ok a), [Call.svcGetMyAccounts]) ∧
    getAccounts (fun _ => (Except.error e : Except Err α)) reqU =
      (HandlerOutcome.escaped e, [Call.svcGetMyAccounts]) ∧
    getTotalBankBalance (fun _ => (Except.ok a : Except Err α)) reqU =
      (HandlerOutcome.responded (Resp.ok a), [Call.svcGetTotalBankBalance]) ∧
    getTotalBankBalance (fun _ => (Except.error e : Except Err α)) reqU =
      (HandlerOutcome.escaped e, [Call.svcGetTotalBankBalance]) := by
  refine ⟨?_, ?_, ?_, ?_, ?_, ?_, ?_, ?_, ?_, ?_, ?_, ?_, ?_, ?_, ?_, rfl, rfl, rfl, rfl⟩
  · unfold createAccount
    split <;> rfl
  · unfold deleteAccount
    split
    · rfl
    · split <;> rfl
  · unfold exportCreateAccount
    split <;> rfl
  · unfold depositMoney
    split <;> rfl
  · rcases h1 : truthy reqAtm.data.accountId with _ | _ <;>
      rcases h2 : auth (reqAtm.data.accountId.getD 0) reqAtm.source [AccountRole.Admin]
        with _ | _ <;>
      rcases h3 : svcAtm reqAtm with _ | _ <;>
      simp [withdrawMoney, isResponded, h1, h2, h3]
  · unfold setDefaultAccount
    split
    · rfl
    · split <;> rfl
  · unfold renameAccount
    split
    · rfl
    · split <;> rfl
  · unfold addSharedAccountUser
    split
    · rfl
    · split <;> rfl
  · unfold removeSharedAccountUser
    split
    · rfl
    · split <;> rfl
  · unfold getUsersFromSharedAccount
    split
    · rfl
    · split <;> rfl
  · unfold addExternalAccount
    split <;> rfl
  · unfold getExternalAccounts
    split <;> rfl
  · unfold addBankBalance
    split <;> rfl
  · unfold addBankBalanceByIdentifier
    split <;> rfl
  · unfold removeBankBalance
    split <;> rfl

/-- Claim C9: in every handler wrapped in try/catch, a delegated call that
throws e makes the handler respond with status error and errorMsg equal
to e.message — with getExternalAccounts additionally forwarding e.name as
errorName. Both the auth check throwing and the service throwing are
covered for the guarded handlers. -/
theorem catch_forwards_error_message {π α : Type}
    (svcAcc : Request AccountIdData → Except Err Unit)
    (svcAtm : Request ATMInput → Except Err Unit)
    (svcRen : Request RenameAccountInput → Except Err Unit)
    (svcAdd : Request AddToSharedAccountInput → Except Err Unit)
    (svcRem : Request RemoveFromSharedAccountInput → Except Err Unit)
    (svcUsers : Request AccountIdData → Except Err α)
    (req : Request π) (reqAcc : Request AccountIdData) (reqAtm : Request ATMInput)
    (reqRen : Request RenameAccountInput) (reqAdd : Request AddToSharedAccountInput)
    (reqRem : Request RemoveFromSharedAccountInput) (reqU : Request Unit)
    (src amt n : Nat) (msg : String) (e : Err) :
    (createAccount (fun _ => (Except.error e : Except Err α)) req).1 =
      HandlerOutcome.responded (Resp.error e.message none) ∧
    (exportCreateAccount (fun _ => (Except.error e : Except Err α)) req).1 =
      HandlerOutcome.responded (Resp.error e.message none) ∧
    (depositMoney (fun _ => Except.error e) reqAtm).1 =
      HandlerOutcome.responded (Resp.error e.message none) ∧
    (deleteAccount (fun _ _ _ => Except.error e) svcAcc reqAcc).1 =
      HandlerOutcome.responded (Resp.error e.message none) ∧
    (deleteAccount (fun _ _ _ => Except.ok ()) (fun _ => Except.error e) reqAcc).1 =
      HandlerOutcome.responded (Resp.error e.message none) ∧
    (withdrawMoney (fun _ _ _ => Except.error e) svcAtm
        ⟨src, ⟨amt, msg, some (n + 1)⟩⟩).1 =
      HandlerOutcome.responded (Resp.error e.message none) ∧
    (withdrawMoney (fun _ _ _ => Except.ok ()) (fun _ => Except.error e)
        ⟨src, ⟨amt, msg, some (n + 1)⟩⟩).1 =
      HandlerOutcome.responded (Resp.error e.message none) ∧
    (withdrawMoney (fun _ _ _ => Except.ok ()) (fun _ => Except.error e)
        ⟨src, ⟨amt, msg, none⟩⟩).1 =
      HandlerOutcome.responded (Resp.error e.message none) ∧
    (setDefaultAccount (fun _ _ _ => Except.error e) svcAcc reqAcc).1 =
      HandlerOutcome.responded (Resp.error e.message none) ∧
    (setDefaultAccount (fun _ _ _ => Except.ok ()) (fun _ => Except.error e) reqAcc).1 =
      HandlerOutcome.responded (Resp.error e.message none) ∧
    (renameAccount (fun _ _ _ => Except.error e) svcRen reqRen).1 =
      HandlerOutcome.responded (Resp.error e.message none) ∧
    (renameAccount (fun _ _ _ => Except.ok ()) (fun _ => Except.error e) reqRen).1 =
      HandlerOutcome.responded (Resp.error e.message none) ∧
    (addSharedAccountUser (fun _ _ _ => Except.error e) svcAdd reqAdd).1 =
      HandlerOutcome.responded (Resp.error e.message none) ∧
    (addSharedAccountUser (fun _ _ _ => Except.ok ()) (fun _ => Except.error e) reqAdd).1 =
      HandlerOutcome.responded (Resp.error e.message none) ∧
    (removeSharedAccountUser (fun _ _ _ => Except.error e) svcRem reqRem).1 =
      HandlerOutcome.responded (Resp.error e.message none) ∧
    (removeSharedAccountUser (fun _ _ _ => Except.ok ()) (fun _ => Except.error e) reqRem).1 =
      HandlerOutcome.responded (Resp.error e.message none) ∧
    (getUsersFromSharedAccount (fun _ _ _ => Except.error e) svcUsers reqAcc).1 =
      HandlerOutcome.responded (Resp.error e.message none) ∧
    (getUsersFromSharedAccount (fun _ _ _ => Except.ok ())
        (fun _ => (Except.error e : Except Err α)) reqAcc).1 =
      HandlerOutcome.responded (Resp.error e.message none) ∧
    (addExternalAccount (fun _ => Except.error e) req).1 =
      HandlerOutcome.responded (Resp.error e.message none) ∧
    (getExternalAccounts (fun _ => (Except.error e : Except Err α)) reqU).1 =
      HandlerOutcome.responded (Resp.error e.message (some e.name)) ∧
    (addBankBalance (fun _ => Except.error e) req).1 =
      HandlerOutcome.responded (Resp.error e.message none) ∧
    (addBankBalanceByIdentifier (fun _ => Except.error e) req).1 =
      HandlerOutcome.responded (Resp.error e.message none) ∧
    (removeBankBalance (fun _ => Except.error e) req).1 =
      HandlerOutcome.responded (Resp.error e.message none) :=
  ⟨rfl, rfl, rfl, rfl, rfl, rfl, rfl, rfl, rfl, rfl, rfl, rfl, rfl, rfl, rfl, rfl, rfl,
   rfl, rfl, rfl, rfl, rfl, rfl⟩

end Pefcl
